import Mathlib

/-!
Verification of the Smart Home Energy Usage dashboard pipeline
(`src/app.py`, `src/app2.py`, `src/app3.py`).

The three scripts share one pipeline: load a CSV of sensor readings,
parse and sort timestamps, compute a per-row total energy, filter by
room / date range / motion state, and render aggregates (means, a
motion pivot table, the latest N readings).

Shallow embedding conventions used below:
* a CSV cell that may be missing or non-numeric is an `Option ℚ`
  (`none` models pandas `NaN` after `to_numeric(errors=coerce)`);
* the result of parsing a `DateTime` cell is an `Option Nat`
  (`none` models `NaT` from `to_datetime(errors=coerce)`); a parsed
  timestamp is a `Nat` counting minutes, so that the calendar date is
  `dt / 1440` and the hour of day is `dt % 1440 / 60`;
* which energy columns exist in the input file is dataset-level
  information, modelled by the record `EnergyCols` of booleans;
* `st.error`/`st.stop` (halting the render cycle with a message) is
  modelled by `Except.error`.
-/

namespace SmartHome

/-- One raw CSV row after pandas' cell-level coercions. -/
structure RawRow where
  homeId : Nat
  dt? : Option Nat
  room : String
  motion : String
  temp? : Option ℚ
  humid? : Option ℚ
  light? : Option ℚ
  appliance? : Option ℚ
  hvac? : Option ℚ
  water? : Option ℚ
  totalGiven? : Option ℚ
deriving DecidableEq

/-- Which of the optional energy columns exist in the loaded CSV. -/
structure EnergyCols where
  hasAppliance : Bool
  hasHVAC : Bool
  hasWater : Bool
  hasTotal : Bool
deriving DecidableEq

/-- `energy_cols` from app.py line 48 / app2.py line 53 / app3.py line 42. -/
def energy_cols : List String :=
  ["Appliance_Usage_kWh", "HVAC_Usage_kWh", "Water_Heater_kWh"]

/-- Column-presence test (`col in df.columns`). -/
def hasCol (f : EnergyCols) (c : String) : Bool :=
  if c = "Appliance_Usage_kWh" then f.hasAppliance
  else if c = "HVAC_Usage_kWh" then f.hasHVAC
  else if c = "Water_Heater_kWh" then f.hasWater
  else if c = "Total_Energy_kWh" then f.hasTotal
  else false

/-- app3.py line 42: the sub-list of `energy_cols` present in the file. -/
def present_energy_cols (f : EnergyCols) : List String :=
  energy_cols.filter (hasCol f)

/-- The cell of row `r` in an energy sub-metric column, post `to_numeric`. -/
def cellVal (r : RawRow) (c : String) : Option ℚ :=
  if c = "Appliance_Usage_kWh" then r.appliance?
  else if c = "HVAC_Usage_kWh" then r.hvac?
  else if c = "Water_Heater_kWh" then r.water?
  else none

/-- `df[energy_cols].sum(axis=1, skipna=True)` restricted to the present
columns: a missing (`NaN`) cell contributes 0 to the row sum. -/
def rowEnergySum (f : EnergyCols) (r : RawRow) : ℚ :=
  ((present_energy_cols f).map (fun c => (cellVal r c).getD 0)).sum

/-- app3.py lines 46-49: always recompute the total from the present
sub-metric columns; fall back to 0 when none exist. -/
def Total_Energy_app3 (f : EnergyCols) (r : RawRow) : ℚ :=
  if present_energy_cols f ≠ [] then rowEnergySum f r else 0

/-- app.py lines 53-54: keep a supplied `Total_Energy_kWh` column as-is,
and only otherwise compute `df[energy_cols].sum(axis=1)`; indexing with the
full `energy_cols` list raises `KeyError` when some column is absent. -/
def Total_Energy_app1 (f : EnergyCols) (r : RawRow) : Except String (Option ℚ) :=
  if f.hasTotal then Except.ok r.totalGiven?
  else if f.hasAppliance && f.hasHVAC && f.hasWater then
    Except.ok (some ((energy_cols.map (fun c => (cellVal r c).getD 0)).sum))
  else Except.error "KeyError"

/-- The claim's wording of the row total: each of the three sub-metric
fields contributes its value when the column is present and the cell is
numeric, and 0 otherwise. -/
def claimSubmetricSum (f : EnergyCols) (r : RawRow) : ℚ :=
  (if f.hasAppliance then (r.appliance?).getD 0 else 0)
  + (if f.hasHVAC then (r.hvac?).getD 0 else 0)
  + (if f.hasWater then (r.water?).getD 0 else 0)

/-- One row of the normalized working set (post parse/sort/derive). -/
structure Reading where
  homeId : Nat
  dt : Nat
  room : String
  motion : String
  temp? : Option ℚ
  humid? : Option ℚ
  light? : Option ℚ
  total : ℚ
deriving DecidableEq

/-- `df[Date] = df[DateTime].dt.date`: the calendar-date component. -/
def dateOf (r : Reading) : Nat := r.dt / 1440

/-- `df[Hour] = df[DateTime].dt.hour`: the hour-of-day component. -/
def hourOf (r : Reading) : Nat := r.dt % 1440 / 60

/-- Ascending-timestamp order used by `sort_values(DateTime)`. -/
def byDtLE (a b : Reading) : Prop := a.dt ≤ b.dt

/-- Descending-timestamp order used by `sort_values(DateTime, ascending=False)`. -/
def byDtGE (a b : Reading) : Prop := b.dt ≤ a.dt

instance : DecidableRel byDtLE := fun a b => inferInstanceAs (Decidable (a.dt ≤ b.dt))

instance : DecidableRel byDtGE := fun a b => inferInstanceAs (Decidable (b.dt ≤ a.dt))

instance : IsTotal Reading byDtLE := ⟨fun a b => Nat.le_total a.dt b.dt⟩

instance : IsTrans Reading byDtLE := ⟨fun _ _ _ => Nat.le_trans⟩

instance : IsTotal Reading byDtGE := ⟨fun a b => Nat.le_total b.dt a.dt⟩

instance : IsTrans Reading byDtGE := ⟨fun _ _ _ h h2 => Nat.le_trans h2 h⟩

/-- app2.py lines 48-49 / app3.py lines 35-36: a row survives
`dropna(subset=[DateTime])` exactly when its timestamp parsed; the
surviving row carries the derived fields and the recomputed total. -/
def toReading (f : EnergyCols) (r : RawRow) : Option Reading :=
  match r.dt? with
  | none => none
  | some t =>
      some { homeId := r.homeId, dt := t, room := r.room, motion := r.motion,
             temp? := r.temp?, humid? := r.humid?, light? := r.light?,
             total := Total_Energy_app3 f r }

/-- app2.py line 49 / app3.py line 36: drop unparseable timestamps, then
`sort_values(DateTime)` ascending. -/
def normalize (f : EnergyCols) (rows : List RawRow) : List Reading :=
  List.insertionSort byDtLE (rows.filterMap (toReading f))

/-- app.py line 38: `pd.to_datetime(df[DateTime])` without
`errors=coerce` raises on the first unparseable value, aborting the
whole render cycle instead of dropping the row. -/
def to_datetime_app1 (rows : List RawRow) : Except String (List RawRow) :=
  if rows.all (fun r => r.dt?.isSome) then Except.ok rows
  else Except.error "DateTimeParseError"

/-- app3.py line 52: the columns the required-column guard actually checks. -/
def checkedColumns : List String :=
  ["Temperature_C", "Humidity_%", "Motion_Sensor", "Room"]

/-- app3.py lines 52-55: stop with a named error at the first checked
column that is absent from the loaded columns. -/
def checkRequired (cols : List String) : Except String Unit :=
  match checkedColumns.filter (fun c => !(cols.contains c)) with
  | [] => Except.ok ()
  | c :: _ => Except.error ("Missing column: " ++ c)

/-- The sidebar motion selector: All / Active Only / Inactive Only. -/
inductive MotionChoice where
  | all
  | activeOnly
  | inactiveOnly
deriving DecidableEq

/-- One set of sidebar filter selections; `room = none` models "All". -/
structure Criteria where
  room : Option String
  startDate : Nat
  endDate : Nat
  motion : MotionChoice
deriving DecidableEq

/-- app.py lines 78-79: room filter (skipped when "All" is selected). -/
def roomFilter (c : Criteria) (l : List Reading) : List Reading :=
  match c.room with
  | none => l
  | some rm => l.filter (fun r => r.room == rm)

/-- app.py lines 81-84: inclusive date-range filter on the date component. -/
def dateFilter (c : Criteria) (l : List Reading) : List Reading :=
  l.filter (fun r => decide (c.startDate ≤ dateOf r) && decide (dateOf r ≤ c.endDate))

/-- app.py lines 86-89: motion filter (skipped when "All" is selected). -/
def motionFilter (c : Criteria) (l : List Reading) : List Reading :=
  match c.motion with
  | MotionChoice.all => l
  | MotionChoice.activeOnly => l.filter (fun r => r.motion == "Active")
  | MotionChoice.inactiveOnly => l.filter (fun r => r.motion == "Inactive")

/-- app.py lines 77-89: the three sidebar filters applied in sequence. -/
def applyFilters (c : Criteria) (l : List Reading) : List Reading :=
  motionFilter c (dateFilter c (roomFilter c l))

/-- Pointwise room predicate. -/
def roomPred (c : Criteria) (r : Reading) : Bool :=
  match c.room with
  | none => true
  | some rm => r.room == rm

/-- Pointwise date predicate. -/
def datePred (c : Criteria) (r : Reading) : Bool :=
  decide (c.startDate ≤ dateOf r) && decide (dateOf r ≤ c.endDate)

/-- Pointwise motion predicate. -/
def motionPred (c : Criteria) (r : Reading) : Bool :=
  match c.motion with
  | MotionChoice.all => true
  | MotionChoice.activeOnly => r.motion == "Active"
  | MotionChoice.inactiveOnly => r.motion == "Inactive"

/-- The conjunction of the three predicates, associated the way the
three sequential `List.filter` calls compose. -/
def fullPred (c : Criteria) (r : Reading) : Bool :=
  (motionPred c r && datePred c r) && roomPred c r

/-- `df[Date].min()`: the earliest calendar date in the working set
(0 for an empty set, where pandas would give `NaN`). -/
def minDateOf : List Reading → Nat
  | [] => 0
  | r :: rs => (rs.map dateOf).foldl min (dateOf r)

/-- `df[Date].max()`: the latest calendar date in the working set. -/
def maxDateOf : List Reading → Nat
  | [] => 0
  | r :: rs => (rs.map dateOf).foldl max (dateOf r)

/-- app3.py lines 81-83: if the filtered set is empty, stop the render
cycle with an explicit warning instead of raising. -/
def renderOutcome (d : List Reading) (c : Criteria) : Except String (List Reading) :=
  if (applyFilters c d).length = 0 then
    Except.error "No data after filters. Try broadening them."
  else Except.ok (applyFilters c d)

/-- pandas `Series.mean()`: sum of the non-missing values divided by
their count, `NaN` (here `none`) when every value is missing. -/
def seriesMean (vs : List (Option ℚ)) : Option ℚ :=
  if (vs.filterMap id).length = 0 then none
  else some ((vs.filterMap id).sum / ((vs.filterMap id).length : ℚ))

/-- app3.py line 89: `data[Temperature_C].mean()`. -/
def avg_temp (l : List Reading) : Option ℚ :=
  seriesMean (l.map (fun r => r.temp?))

/-- app3.py line 90: `data[Humidity_%].mean()`. -/
def avg_hum (l : List Reading) : Option ℚ :=
  seriesMean (l.map (fun r => r.humid?))

/-- `Motion_Sensor == Active`. -/
def isActive (r : Reading) : Bool := r.motion == "Active"

/-- The pivot aggregate at one cell: `(x == Active).sum()` over the rows
of the filtered subset falling in hour `h` and room `rm`. -/
def activeCount (l : List Reading) (h : Nat) (rm : String) : Nat :=
  l.countP (fun r => (hourOf r == h) && ((r.room == rm) && isActive r))

/-- The hour values observed in the filtered subset (the pivot index). -/
def observedHours (l : List Reading) : List Nat :=
  (l.map hourOf).dedup

/-- The room values observed in the filtered subset (the pivot columns). -/
def observedRooms (l : List Reading) : List String :=
  (l.map (fun r => r.room)).dedup

/-- app.py lines 147-150: `pivot_table(index=Hour, columns=Room,
values=Motion_Sensor, aggfunc=count of Active, fill_value=0)`, as a
dense grid over the observed hour and room domains. -/
def motion_pivot (l : List Reading) : List (Nat × List (String × Nat)) :=
  (observedHours l).map
    (fun h => (h, (observedRooms l).map (fun rm => (rm, activeCount l h rm))))

/-- Reading one cell of the pivot grid. -/
def pivotLookup (t : List (Nat × List (String × Nat))) (h : Nat) (rm : String) :
    Option Nat :=
  match List.lookup h t with
  | none => none
  | some row => List.lookup rm row

/-- The sum of every cell of the pivot grid. -/
def pivotTotal (t : List (Nat × List (String × Nat))) : Nat :=
  (t.map (fun p => (p.2.map (fun q => q.2)).sum)).sum

/-- app.py line 186: `sort_values(DateTime, ascending=False).head(n)`. -/
def latest_readings (n : Nat) (l : List Reading) : List Reading :=
  (List.insertionSort byDtGE l).take n

/-- The contribution of a single row to one pivot cell. -/
def cellInd (x : Reading) (h : Nat) (rm : String) : Nat :=
  if (hourOf x == h) && ((x.room == rm) && isActive x) then 1 else 0

/-! Concrete fixtures used by counterexamples and witnesses. -/

/-- A file that has the Appliance column and a precomputed total column. -/
def ecolsTotalAndAppliance : EnergyCols :=
  { hasAppliance := true, hasHVAC := false, hasWater := false, hasTotal := true }

/-- A file with no energy columns at all. -/
def ecolsNone : EnergyCols :=
  { hasAppliance := false, hasHVAC := false, hasWater := false, hasTotal := false }

/-- A row whose supplied total (5) disagrees with its sub-metric sum (1). -/
def rowTotalFive : RawRow :=
  { homeId := 0, dt? := some 0, room := "Kitchen", motion := "Active",
    temp? := none, humid? := none, light? := none,
    appliance? := some 1, hvac? := none, water? := none, totalGiven? := some 5 }

/-- A row with every optional cell missing. -/
def rowAllMissing : RawRow :=
  { homeId := 0, dt? := some 0, room := "Kitchen", motion := "Inactive",
    temp? := none, humid? := none, light? := none,
    appliance? := none, hvac? := none, water? := none, totalGiven? := none }

/-- A row whose DateTime cell does not parse. -/
def rowBadDate : RawRow :=
  { homeId := 0, dt? := none, room := "Kitchen", motion := "Active",
    temp? := none, humid? := none, light? := none,
    appliance? := none, hvac? := none, water? := none, totalGiven? := none }

/-- A row whose DateTime cell parses to minute 120 (hour 2 of day 0). -/
def rowGoodDate : RawRow :=
  { homeId := 1, dt? := some 120, room := "Kitchen", motion := "Active",
    temp? := none, humid? := none, light? := none,
    appliance? := none, hvac? := none, water? := none, totalGiven? := none }

/-- The normalized reading produced from `rowGoodDate` with no energy columns. -/
def readingGoodDate : Reading :=
  { homeId := 1, dt := 120, room := "Kitchen", motion := "Active",
    temp? := none, humid? := none, light? := none, total := 0 }

/-- A column set missing `Home_ID` but containing every checked column. -/
def colsNoHomeId : List String :=
  ["DateTime", "Temperature_C", "Humidity_%", "Light_Lux", "Motion_Sensor", "Room"]

/-- An Active kitchen reading at minute 5. -/
def readingKitchen : Reading :=
  { homeId := 1, dt := 5, room := "Kitchen", motion := "Active",
    temp? := none, humid? := none, light? := none, total := 0 }

/-- An Active bedroom reading at the same minute 5. -/
def readingBedroom : Reading :=
  { homeId := 1, dt := 5, room := "Bedroom", motion := "Active",
    temp? := none, humid? := none, light? := none, total := 0 }

/-- The identity criteria for a working set living entirely on date 0. -/
def criteriaAll : Criteria :=
  { room := none, startDate := 0, endDate := 0, motion := MotionChoice.all }

/-- A reading with a temperature present and humidity missing. -/
def readingTempOnly : Reading :=
  { homeId := 2, dt := 60, room := "Bedroom", motion := "Inactive",
    temp? := some 21, humid? := none, light? := none, total := 0 }

/-! Helper lemmas. -/

lemma getD_zero_nonneg {o : Option ℚ} (h : ∀ q, o = some q → 0 ≤ q) :
    0 ≤ o.getD 0 := by
  cases o with
  | none => simp
  | some q => simpa using h q rfl

lemma roomFilter_eq_filter (c : Criteria) (l : List Reading) :
    roomFilter c l = l.filter (roomPred c) := by
  cases h : c.room with
  | none =>
      have hp : roomPred c = fun _ => true := by
        funext r
        simp [roomPred, h]
      rw [hp, List.filter_true, roomFilter, h]
  | some rm =>
      have hp : roomPred c = fun r => r.room == rm := by
        funext r
        simp [roomPred, h]
      rw [roomFilter, h, hp]

lemma motionFilter_eq_filter (c : Criteria) (l : List Reading) :
    motionFilter c l = l.filter (motionPred c) := by
  cases h : c.motion with
  | all =>
      have hp : motionPred c = fun _ => true := by
        funext r
        simp [motionPred, h]
      rw [hp, List.filter_true, motionFilter, h]
  | activeOnly =>
      have hp : motionPred c = fun r => r.motion == "Active" := by
        funext r
        simp [motionPred, h]
      rw [motionFilter, h, hp]
  | inactiveOnly =>
      have hp : motionPred c = fun r => r.motion == "Inactive" := by
        funext r
        simp [motionPred, h]
      rw [motionFilter, h, hp]

lemma applyFilters_eq_filter (c : Criteria) (l : List Reading) :
    applyFilters c l = l.filter (fullPred c) := by
  unfold applyFilters dateFilter
  rw [roomFilter_eq_filter, motionFilter_eq_filter, List.filter_filter,
    List.filter_filter]
  rfl

lemma foldl_min_le_init (d : Nat) (ds : List Nat) : ds.foldl min d ≤ d := by
  induction ds generalizing d with
  | nil => exact Nat.le_refl d
  | cons a as ih => exact Nat.le_trans (ih (min d a)) (Nat.min_le_left d a)

lemma foldl_min_le_mem (d : Nat) (ds : List Nat) (x : Nat) (hx : x ∈ ds) :
    ds.foldl min d ≤ x := by
  induction ds generalizing d with
  | nil => cases hx
  | cons a as ih =>
      rcases List.mem_cons.mp hx with h | h
      · subst h
        exact Nat.le_trans (foldl_min_le_init (min d x) as) (Nat.min_le_right d x)
      · exact ih (min d a) h

lemma le_foldl_max_init (d : Nat) (ds : List Nat) : d ≤ ds.foldl max d := by
  induction ds generalizing d with
  | nil => exact Nat.le_refl d
  | cons a as ih => exact Nat.le_trans (Nat.le_max_left d a) (ih (max d a))

lemma le_foldl_max_mem (d : Nat) (ds : List Nat) (x : Nat) (hx : x ∈ ds) :
    x ≤ ds.foldl max d := by
  induction ds generalizing d with
  | nil => cases hx
  | cons a as ih =>
      rcases List.mem_cons.mp hx with h | h
      · subst h
        exact Nat.le_trans (Nat.le_max_right d x) (le_foldl_max_init (max d x) as)
      · exact ih (max d a) h

lemma minDateOf_le {l : List Reading} {r : Reading} (hr : r ∈ l) :
    minDateOf l ≤ dateOf r := by
  cases l with
  | nil => cases hr
  | cons a rs =>
      rcases List.mem_cons.mp hr with h | h
      · subst h
        exact foldl_min_le_init _ _
      · exact foldl_min_le_mem _ _ _ (List.mem_map_of_mem dateOf h)

lemma le_maxDateOf {l : List Reading} {r : Reading} (hr : r ∈ l) :
    dateOf r ≤ maxDateOf l := by
  cases l with
  | nil => cases hr
  | cons a rs =>
      rcases List.mem_cons.mp hr with h | h
      · subst h
        exact le_foldl_max_init _ _
      · exact le_foldl_max_mem _ _ _ (List.mem_map_of_mem dateOf h)

lemma sum_map_add {α : Type} (L : List α) (f g : α → Nat) :
    (L.map (fun x => f x + g x)).sum = (L.map f).sum + (L.map g).sum := by
  induction L with
  | nil => rfl
  | cons a as ih =>
      simp only [List.map_cons, List.sum_cons, ih]
      omega

lemma sum_map_ite_zero {κ : Type} [BEq κ] [LawfulBEq κ] (R : List κ) (a : κ)
    (ha : a ∉ R) (n : κ → Nat) :
    (R.map (fun k => if a == k then n k else 0)).sum = 0 := by
  induction R with
  | nil => rfl
  | cons b bs ih =>
      have hab : (a == b) = false :=
        beq_eq_false_iff_ne.mpr (fun h => ha (h ▸ List.mem_cons_self b bs))
      have hbs : a ∉ bs := fun h => ha (List.mem_cons_of_mem b h)
      simp [hab, ih hbs]

lemma sum_map_ite_eq {κ : Type} [BEq κ] [LawfulBEq κ] (R : List κ) (hR : R.Nodup)
    (a : κ) (ha : a ∈ R) (n : κ → Nat) :
    (R.map (fun k => if a == k then n k else 0)).sum = n a := by
  induction R with
  | nil => cases ha
  | cons b bs ih =>
      rcases List.nodup_cons.mp hR with ⟨hb, hbs⟩
      by_cases hab : a = b
      · subst hab
        simp [sum_map_ite_zero bs a hb n]
      · have h1 : (a == b) = false := beq_eq_false_iff_ne.mpr hab
        have h2 : a ∈ bs := by
          rcases List.mem_cons.mp ha with h3 | h3
          · exact absurd h3 hab
          · exact h3
        simp [h1, ih hbs h2]

lemma double_sum_cell (H : List Nat) (R : List String) (hH : H.Nodup)
    (hR : R.Nodup) (x : Reading)
    (hmemH : isActive x = true → hourOf x ∈ H)
    (hmemR : isActive x = true → x.room ∈ R) :
    (H.map (fun h => (R.map (fun rm => cellInd x h rm)).sum)).sum
      = if isActive x then 1 else 0 := by
  cases hact : isActive x with
  | false => simp [cellInd, hact]
  | true =>
      have inner : ∀ h ∈ H,
          (R.map (fun rm => cellInd x h rm)).sum
            = (fun h => if hourOf x == h then 1 else 0) h := by
        intro h _
        cases hhx : (hourOf x == h) with
        | false => simp [cellInd, hhx]
        | true =>
            simp only [cellInd, hact, hhx, Bool.true_and, Bool.and_true]
            exact sum_map_ite_eq R hR x.room (hmemR hact) (fun _ => 1)
      rw [List.map_congr_left inner]
      simpa using sum_map_ite_eq H hH (hourOf x) (hmemH hact) (fun _ => 1)

lemma sum_activeCount (H : List Nat) (R : List String) (hH : H.Nodup)
    (hR : R.Nodup) (l : List Reading)
    (covH : ∀ r ∈ l, isActive r = true → hourOf r ∈ H)
    (covR : ∀ r ∈ l, isActive r = true → r.room ∈ R) :
    (H.map (fun h => (R.map (fun rm => activeCount l h rm)).sum)).sum
      = l.countP isActive := by
  induction l with
  | nil => simp [activeCount]
  | cons x xs ih =>
      have covHx : ∀ r ∈ xs, isActive r = true → hourOf r ∈ H :=
        fun r hr => covH r (List.mem_cons_of_mem x hr)
      have covRx : ∀ r ∈ xs, isActive r = true → r.room ∈ R :=
        fun r hr => covR r (List.mem_cons_of_mem x hr)
      have h1 : ∀ h ∈ H,
          (R.map (fun rm => activeCount (x :: xs) h rm)).sum
            = (fun h => (R.map (fun rm => activeCount xs h rm)).sum
                + (R.map (fun rm => cellInd x h rm)).sum) h := by
        intro h _
        have h2 : ∀ rm ∈ R,
            activeCount (x :: xs) h rm
              = (fun rm => activeCount xs h rm + cellInd x h rm) rm := by
          intro rm _
          simp [activeCount, List.countP_cons, cellInd]
        rw [List.map_congr_left h2, sum_map_add]
      rw [List.map_congr_left h1, sum_map_add, ih covHx covRx,
        double_sum_cell H R hH hR x (covH x (List.mem_cons_self x xs))
          (covR x (List.mem_cons_self x xs)), List.countP_cons]

lemma lookup_map_self {κ β : Type} [BEq κ] [LawfulBEq κ] (ks : List κ)
    (v : κ → β) (k : κ) (hk : k ∈ ks) :
    List.lookup k (ks.map (fun x => (x, v x))) = some (v k) := by
  induction ks with
  | nil => cases hk
  | cons a as ih =>
      by_cases h : k = a
      · subst h
        simp [List.lookup]
      · have h1 : (k == a) = false := beq_eq_false_iff_ne.mpr h
        have h2 : k ∈ as := by
          rcases List.mem_cons.mp hk with h3 | h3
          · exact absurd h3 h
          · exact h3
        simp [List.lookup, h1, ih h2]

lemma length_filterMap_toReading (f : EnergyCols) (rows : List RawRow) :
    (rows.filterMap (toReading f)).length
      = (rows.filter (fun r => r.dt?.isSome)).length := by
  induction rows with
  | nil => rfl
  | cons r rs ih =>
      cases hr : r.dt? with
      | none => simp [toReading, hr, ih]
      | some t => simp [toReading, hr, ih]

lemma present_energy_cols_eq (f : EnergyCols) :
    present_energy_cols f =
      (if f.hasAppliance then ["Appliance_Usage_kWh"] else [])
        ++ (if f.hasHVAC then ["HVAC_Usage_kWh"] else [])
        ++ (if f.hasWater then ["Water_Heater_kWh"] else []) := by
  obtain ⟨ha, hh, hw, ht⟩ := f
  cases ha <;> cases hh <;> cases hw <;> cases ht <;> decide

lemma cellVal_appliance (r : RawRow) : cellVal r "Appliance_Usage_kWh" = r.appliance? := rfl

lemma cellVal_hvac (r : RawRow) : cellVal r "HVAC_Usage_kWh" = r.hvac? := rfl

lemma cellVal_water (r : RawRow) : cellVal r "Water_Heater_kWh" = r.water? := rfl

lemma filterMap_id_map {α β : Type} (f : α → Option β) (l : List α) :
    (l.map f).filterMap id = l.filterMap f := by
  induction l with
  | nil => rfl
  | cons a as ih => cases h : f a <;> simp [List.filterMap_cons, h, ih]

/-! Claim theorems. -/

/-- Claim C1 (amended): in app3.py the per-row total equals the sum of the
energy-sub-metric fields whose column is present in the input, a missing or
non-numeric cell contributing 0; a supplied precomputed total never affects
it; it is 0 when no sub-metric column exists; and it is non-negative when
every present sub-metric value is non-negative. (The claim as frozen is
false of app.py, where a supplied total takes precedence; see the
counterexample.) -/
theorem total_energy_app3_spec (f : EnergyCols) (r : RawRow) :
    Total_Energy_app3 f r = claimSubmetricSum f r
    ∧ (∀ t, Total_Energy_app3 f { r with totalGiven? := t } = Total_Energy_app3 f r)
    ∧ (f.hasAppliance = false → f.hasHVAC = false → f.hasWater = false →
        Total_Energy_app3 f r = 0)
    ∧ ((∀ q, r.appliance? = some q → 0 ≤ q) → (∀ q, r.hvac? = some q → 0 ≤ q) →
        (∀ q, r.water? = some q → 0 ≤ q) → 0 ≤ Total_Energy_app3 f r) := by
  have hmain : Total_Energy_app3 f r = claimSubmetricSum f r := by
    obtain ⟨ha, hh, hw, ht⟩ := f
    cases ha <;> cases hh <;> cases hw <;>
      simp [Total_Energy_app3, present_energy_cols_eq, rowEnergySum,
        claimSubmetricSum, cellVal_appliance, cellVal_hvac, cellVal_water] <;>
      ring
  refine ⟨hmain, fun t => rfl, ?_, ?_⟩
  · intro h1 h2 h3
    have hp : present_energy_cols f = [] := by
      rw [present_energy_cols_eq, h1, h2, h3]
      simp
    simp [Total_Energy_app3, hp]
  · intro hA hHv hW
    rw [hmain]
    unfold claimSubmetricSum
    have t1 : 0 ≤ (if f.hasAppliance then (r.appliance?).getD 0 else 0) := by
      split
      · exact getD_zero_nonneg hA
      · exact le_refl 0
    have t2 : 0 ≤ (if f.hasHVAC then (r.hvac?).getD 0 else 0) := by
      split
      · exact getD_zero_nonneg hHv
      · exact le_refl 0
    have t3 : 0 ≤ (if f.hasWater then (r.water?).getD 0 else 0) := by
      split
      · exact getD_zero_nonneg hW
      · exact le_refl 0
    exact add_nonneg (add_nonneg t1 t2) t3

/-- Claim C1 witness: with no energy columns the app3 total is 0 and
non-negative, by the theorem applied at a concrete row. -/
theorem total_energy_app3_witness :
    0 ≤ Total_Energy_app3 ecolsNone rowAllMissing
      ∧ Total_Energy_app3 ecolsNone rowAllMissing = 0 := by
  refine ⟨(total_energy_app3_spec ecolsNone rowAllMissing).2.2.2 ?_ ?_ ?_,
    (total_energy_app3_spec ecolsNone rowAllMissing).2.2.1 rfl rfl rfl⟩ <;>
    · intro q hq
      simp [rowAllMissing] at hq

/-- Claim C1 counterexample: in app.py a supplied precomputed total (5)
replaces the recomputation even though the Appliance sub-metric column
exists and sums to 1, so the total is not the sum of the present
sub-metrics. -/
theorem total_energy_app1_cex :
    Total_Energy_app1 ecolsTotalAndAppliance rowTotalFive = Except.ok (some 5)
      ∧ rowEnergySum ecolsTotalAndAppliance rowTotalFive = 1
      ∧ (5 : ℚ) ≠ 1 := by
  refine ⟨rfl, ?_, by norm_num⟩
  simp [rowEnergySum, present_energy_cols_eq, ecolsTotalAndAppliance,
    cellVal_appliance, rowTotalFive]

/-- Claim C2 (amended): whenever one of the four columns app3.py actually
checks (Temperature_C, Humidity_%, Motion_Sensor, Room) is absent, the
guard stops the render cycle with an error naming a missing checked
column. (The claim as frozen also requires this for Home_ID, DateTime and
Light_Lux, which the guard does not check; see the counterexample.) -/
theorem check_required_spec (cols : List String) (c : String)
    (hc : c ∈ checkedColumns) (hmiss : cols.contains c = false) :
    ∃ m, checkRequired cols = Except.error ("Missing column: " ++ m)
      ∧ m ∈ checkedColumns ∧ cols.contains m = false := by
  have hcF : c ∈ checkedColumns.filter (fun x => !(cols.contains x)) :=
    List.mem_filter.mpr ⟨hc, by rw [hmiss]; rfl⟩
  cases hF : checkedColumns.filter (fun x => !(cols.contains x)) with
  | nil =>
      rw [hF] at hcF
      cases hcF
  | cons m ms =>
      have hm : m ∈ checkedColumns.filter (fun x => !(cols.contains x)) := by
        rw [hF]
        exact List.mem_cons_self m ms
      refine ⟨m, ?_, (List.mem_filter.mp hm).1, ?_⟩
      · unfold checkRequired
        rw [hF]
      · have h2 := (List.mem_filter.mp hm).2
        simpa using h2

/-- Claim C2 witness: a file containing only a DateTime column triggers a
named missing-column error, by the theorem applied at a concrete input. -/
theorem check_required_witness :
    ∃ m, checkRequired ["DateTime"] = Except.error ("Missing column: " ++ m)
      ∧ m ∈ checkedColumns ∧ (["DateTime"] : List String).contains m = false :=
  check_required_spec ["DateTime"] "Room" (by decide) (by decide)

/-- Claim C2 counterexample: a file missing the required `Home_ID` column
(but containing the four checked columns) passes the guard with no error
at all, so not every missing required column yields a named error. -/
theorem check_required_cex :
    checkRequired colsNoHomeId = Except.ok ()
      ∧ "Home_ID" ∉ colsNoHomeId := by
  exact ⟨rfl, by decide⟩

/-- Claim C3 (amended): in app2.py/app3.py the normalized working set is a
permutation of the images of exactly those input rows whose timestamp
parsed (same length as the parse-successful rows, every member arising
from such a row), sorted by timestamp ascending. (The claim as frozen is
false of app.py, whose parse is fatal on unparseable timestamps; see the
counterexample.) -/
theorem normalize_spec (f : EnergyCols) (rows : List RawRow) :
    (normalize f rows).Perm (rows.filterMap (toReading f))
    ∧ (normalize f rows).length = (rows.filter (fun r => r.dt?.isSome)).length
    ∧ List.Sorted byDtLE (normalize f rows)
    ∧ (∀ x ∈ normalize f rows, ∃ r ∈ rows, r.dt? = some x.dt ∧ toReading f r = some x) := by
  refine ⟨List.perm_insertionSort byDtLE _, ?_, List.sorted_insertionSort byDtLE _, ?_⟩
  · rw [normalize, (List.perm_insertionSort byDtLE _).length_eq]
    exact length_filterMap_toReading f rows
  · intro x hx
    have hx2 : x ∈ rows.filterMap (toReading f) :=
      ((List.perm_insertionSort byDtLE _).mem_iff).mp hx
    rcases List.mem_filterMap.mp hx2 with ⟨r, hr, hfr⟩
    refine ⟨r, hr, ?_, hfr⟩
    cases hdt : r.dt? with
    | none =>
        exfalso
        simp [toReading, hdt] at hfr
    | some t =>
        simp only [toReading, hdt, Option.some.injEq] at hfr
        subst hfr
        rfl

/-- Claim C3 witness: a two-row input with one unparseable timestamp
normalizes to the one parse-successful reading, by the theorem applied at
a concrete input. -/
theorem normalize_witness :
    ∃ r ∈ [rowBadDate, rowGoodDate], r.dt? = some readingGoodDate.dt
      ∧ toReading ecolsNone r = some readingGoodDate :=
  (normalize_spec ecolsNone [rowBadDate, rowGoodDate]).2.2.2 readingGoodDate (by decide)

/-- Claim C3 counterexample: app.py parses timestamps without
`errors=coerce`, so a single unparseable timestamp aborts ingestion with
an error instead of silently excluding the row. -/
theorem to_datetime_app1_cex :
    to_datetime_app1 [rowBadDate] = Except.error "DateTimeParseError"
      ∧ rowBadDate.dt? = none :=
  ⟨rfl, rfl⟩

/-- Claim C4: the motion pivot is a dense grid over the observed hour and
room domains — every observed (hour, room) cell is present and holds the
count of Active rows at that hour in that room (an explicit 0 when there
are none) — and the cells sum to exactly the number of Active rows of the
filtered subset. -/
theorem motion_pivot_spec (l : List Reading) :
    (∀ h ∈ observedHours l, ∀ rm ∈ observedRooms l,
        pivotLookup (motion_pivot l) h rm = some (activeCount l h rm))
    ∧ pivotTotal (motion_pivot l) = l.countP isActive := by
  constructor
  · intro h hh rm hrm
    unfold pivotLookup motion_pivot
    rw [lookup_map_self (observedHours l)
      (fun h => (observedRooms l).map (fun rm => (rm, activeCount l h rm))) h hh]
    exact lookup_map_self (observedRooms l) (fun rm => activeCount l h rm) rm hrm
  · simp only [pivotTotal, motion_pivot, List.map_map, Function.comp_def]
    exact sum_activeCount (observedHours l) (observedRooms l)
      (List.nodup_dedup _) (List.nodup_dedup _) l
      (fun r hr _ => List.mem_dedup.mpr (List.mem_map_of_mem hourOf hr))
      (fun r hr _ => List.mem_dedup.mpr (List.mem_map_of_mem (fun r => r.room) hr))

/-- Claim C4 witness: for a one-row Active Kitchen subset the pivot cell
at (hour 0, Kitchen) reads an explicit count 1, by the theorem applied at
a concrete input. -/
theorem motion_pivot_witness :
    pivotLookup (motion_pivot [readingKitchen]) 0 "Kitchen" = some 1 := by
  have h := (motion_pivot_spec [readingKitchen]).1 0 (by decide) "Kitchen" (by decide)
  rw [h]
  decide

/-- Claim C5 (amended): `latest_readings n` returns at most `n` rows, all
members of the filtered subset, ordered by non-increasing timestamp —
strictly descending whenever the subset's timestamps are pairwise
distinct. (The claim as frozen asserts strict descent unconditionally,
which fails on tied timestamps; see the counterexample.) -/
theorem latest_readings_spec (n : Nat) (l : List Reading) :
    (latest_readings n l).length ≤ n
    ∧ (∀ r ∈ latest_readings n l, r ∈ l)
    ∧ List.Sorted byDtGE (latest_readings n l)
    ∧ ((l.map (fun r => r.dt)).Nodup →
        (latest_readings n l).Pairwise (fun a b => b.dt < a.dt)) := by
  refine ⟨?_, ?_, ?_, ?_⟩
  · simpa [latest_readings] using List.length_take_le n (List.insertionSort byDtGE l)
  · intro r hr
    have h1 : r ∈ List.insertionSort byDtGE l :=
      (List.take_sublist n _).subset hr
    exact ((List.perm_insertionSort byDtGE l).mem_iff).mp h1
  · exact (List.sorted_insertionSort byDtGE l).sublist (List.take_sublist n _)
  · intro hnd
    have hs : (List.insertionSort byDtGE l).Pairwise byDtGE :=
      List.sorted_insertionSort byDtGE l
    have hperm : ((List.insertionSort byDtGE l).map (fun r => r.dt)).Perm
        (l.map (fun r => r.dt)) := (List.perm_insertionSort byDtGE l).map _
    have hnd2 : ((List.insertionSort byDtGE l).map (fun r => r.dt)).Nodup :=
      hperm.symm.nodup hnd
    have hne : (List.insertionSort byDtGE l).Pairwise (fun a b => a.dt ≠ b.dt) :=
      (List.pairwise_map).mp hnd2
    have hlt : (List.insertionSort byDtGE l).Pairwise (fun a b => b.dt < a.dt) :=
      (hs.and hne).imp (fun hab => lt_of_le_of_ne hab.1 (Ne.symm hab.2))
    exact hlt.sublist (List.take_sublist n _)

/-- Claim C5 witness: at most one row comes back for n = 1, the returned
row belongs to the subset, and with distinct timestamps the output is
strictly descending, by the theorem applied at concrete inputs. -/
theorem latest_readings_witness :
    (latest_readings 1 [readingKitchen, readingBedroom]).length ≤ 1
      ∧ readingKitchen ∈ [readingKitchen, readingBedroom]
      ∧ (latest_readings 1 [readingKitchen, readingTempOnly]).Pairwise
          (fun a b => b.dt < a.dt) :=
  ⟨(latest_readings_spec 1 [readingKitchen, readingBedroom]).1,
    (latest_readings_spec 1 [readingKitchen, readingBedroom]).2.1 readingKitchen (by decide),
    (latest_readings_spec 1 [readingKitchen, readingTempOnly]).2.2.2 (by decide)⟩

/-- Claim C5 counterexample: a filtered subset with two rows at the same
timestamp is returned in an order that is not strictly descending. -/
theorem latest_readings_cex :
    ¬ (latest_readings 20
        (applyFilters criteriaAll [readingKitchen, readingBedroom])).Pairwise
        (fun a b => b.dt < a.dt) := by
  decide

/-- Claim C6: the temperature and humidity means are arithmetic means over
the non-missing values of the filtered subset (missing values are excluded
from the denominator), and when every value is missing the mean is the
not-a-value outcome `none`, never a coerced 0. -/
theorem mean_spec (l : List Reading) :
    ((∀ r ∈ l, r.temp? = none) → avg_temp l = none)
    ∧ (l.filterMap (fun r => r.temp?) ≠ [] →
        avg_temp l = some ((l.filterMap (fun r => r.temp?)).sum
          / ((l.filterMap (fun r => r.temp?)).length : ℚ)))
    ∧ ((∀ r ∈ l, r.humid? = none) → avg_hum l = none)
    ∧ (l.filterMap (fun r => r.humid?) ≠ [] →
        avg_hum l = some ((l.filterMap (fun r => r.humid?)).sum
          / ((l.filterMap (fun r => r.humid?)).length : ℚ))) := by
  refine ⟨?_, ?_, ?_, ?_⟩
  · intro hall
    have h0 : l.filterMap (fun r => r.temp?) = [] :=
      List.filterMap_eq_nil_iff.mpr (fun a ha => hall a ha)
    simp [avg_temp, seriesMean, filterMap_id_map, h0]
  · intro hne
    have hlen : (l.filterMap (fun r => r.temp?)).length ≠ 0 :=
      fun h0 => hne (List.length_eq_zero.mp h0)
    simp [avg_temp, seriesMean, filterMap_id_map, hlen]
  · intro hall
    have h0 : l.filterMap (fun r => r.humid?) = [] :=
      List.filterMap_eq_nil_iff.mpr (fun a ha => hall a ha)
    simp [avg_hum, seriesMean, filterMap_id_map, h0]
  · intro hne
    have hlen : (l.filterMap (fun r => r.humid?)).length ≠ 0 :=
      fun h0 => hne (List.length_eq_zero.mp h0)
    simp [avg_hum, seriesMean, filterMap_id_map, hlen]

/-- Claim C6 witness: a one-row subset with temperature 21 present and
humidity missing has mean temperature 21/1 and undefined mean humidity,
by the theorem applied at a concrete input. -/
theorem mean_witness :
    avg_temp [readingTempOnly]
        = some ((([readingTempOnly].filterMap (fun r => r.temp?)).sum)
          / ((([readingTempOnly].filterMap (fun r => r.temp?)).length : ℚ)))
      ∧ avg_hum [readingTempOnly] = none := by
  refine ⟨(mean_spec [readingTempOnly]).2.1 (by decide),
    (mean_spec [readingTempOnly]).2.2.1 ?_⟩
  intro r hr
  rw [List.mem_singleton] at hr
  subst hr
  rfl

/-- Claim C7: when the conjunction of the filters matches no rows, the
pipeline yields the explicit user-visible "no data" outcome that
terminates the render cycle, and otherwise the filtered rows; the
embedding is a total function, so no exception is possible. -/
theorem empty_filter_spec (d : List Reading) (c : Criteria) :
    (applyFilters c d = [] →
        renderOutcome d c = Except.error "No data after filters. Try broadening them.")
    ∧ (applyFilters c d ≠ [] → renderOutcome d c = Except.ok (applyFilters c d)) := by
  constructor
  · intro h
    simp [renderOutcome, h]
  · intro h
    have hlen : (applyFilters c d).length ≠ 0 :=
      fun h0 => h (List.length_eq_zero.mp h0)
    simp [renderOutcome, hlen]

/-- Claim C7 witness: the empty dataset filters to no rows and produces
the explicit warning outcome, by the theorem applied at a concrete input. -/
theorem empty_filter_witness :
    renderOutcome [] criteriaAll
      = Except.error "No data after filters. Try broadening them." :=
  (empty_filter_spec [] criteriaAll).1 rfl

/-- Claim C8: filtering is idempotent — applying the same criteria twice
gives the same result as applying them once. -/
theorem filter_idempotent (c : Criteria) (l : List Reading) :
    applyFilters c (applyFilters c l) = applyFilters c l := by
  rw [applyFilters_eq_filter, applyFilters_eq_filter, List.filter_filter]
  congr 1
  funext r
  exact Bool.and_self _

/-- Claim C9: filtering with the identity criteria — room "All", date
range equal to the full span of the dataset, motion "All" — returns the
dataset unchanged in content and order. -/
theorem filter_identity (l : List Reading) (hl : l ≠ []) :
    applyFilters ⟨none, minDateOf l, maxDateOf l, MotionChoice.all⟩ l = l := by
  rw [applyFilters_eq_filter]
  apply List.filter_eq_self.mpr
  intro r hr
  simp [fullPred, motionPred, roomPred, datePred]
  exact ⟨minDateOf_le hr, le_maxDateOf hr⟩

/-- Claim C9 witness: the identity criteria leave a concrete two-row
dataset unchanged, by the theorem applied at a concrete input. -/
theorem filter_identity_witness :
    applyFilters ⟨none, minDateOf [readingKitchen, readingBedroom],
        maxDateOf [readingKitchen, readingBedroom], MotionChoice.all⟩
      [readingKitchen, readingBedroom] = [readingKitchen, readingBedroom] :=
  filter_identity [readingKitchen, readingBedroom] (by decide)

/-- Claim C10: the filtered view is a subsequence of the normalized
dataset, so the surviving rows keep its ascending-timestamp order; the
embedding is pure, so the input dataset itself is untouched by filtering. -/
theorem filter_subsequence (c : Criteria) (l : List Reading)
    (hs : List.Sorted byDtLE l) :
    List.Sublist (applyFilters c l) l ∧ List.Sorted byDtLE (applyFilters c l) := by
  constructor
  · rw [applyFilters_eq_filter]
    exact List.filter_sublist l
  · rw [applyFilters_eq_filter]
    exact hs.sublist (List.filter_sublist l)

/-- Claim C10 witness: on a concrete sorted dataset the filtered view is a
sorted subsequence, by the theorem applied at a concrete input. -/
theorem filter_subsequence_witness :
    List.Sublist (applyFilters criteriaAll [readingKitchen, readingBedroom])
        [readingKitchen, readingBedroom]
      ∧ List.Sorted byDtLE (applyFilters criteriaAll [readingKitchen, readingBedroom]) :=
  filter_subsequence criteriaAll [readingKitchen, readingBedroom] (by decide)

end SmartHome
